import Mathlib

/-!
Verification of `transcribe.py` and `translate.py` from the
Patrick0778/internship-assessment repository.

The first part embeds `transcribe_audio` from `transcribe.py`: the local
language check, the file-existence check, the submission POST, and the
polling loop (at most 30 GET requests).  Network interaction is modelled
by an environment `Env` that fixes the submission response and the reply
each poll attempt would receive; the function returns the produced text
together with the number of POST and GET requests actually issued.

The second part embeds the phrase table of `translate.py`, the reverse
derivation performed at startup, and the phrase-lookup logic (exact match
first, case-insensitive fallback, otherwise "not available").
-/

set_option autoImplicit false

namespace Transcribe

/-- The `language_codes` dict literal of `transcribe.py` (lines 42-49),
in source order. -/
def language_codes : List (String × String) :=
  [("English", "eng"),
   ("Luganda", "lug"),
   ("Runyankole", "nyn"),
   ("Ateso", "teo"),
   ("Lugbara", "lgg"),
   ("Acholi", "ach")]

/-- Message `f"Error: Language '{language}' is not supported."` (line 52). -/
def unsupportedMsg (language : String) : String :=
  "Error: Language \x27" ++ language ++ "\x27 is not supported."

/-- Message `f"Error: File '{audio_path}' does not exist."` (line 67). -/
def fileMissingMsg (audio_path : String) : String :=
  "Error: File \x27" ++ audio_path ++ "\x27 does not exist."

/-- Message `f"Error: API request failed with status code {response.status_code}: {response.text}"`
(line 89). -/
def submitFailMsg (code : Nat) (body : String) : String :=
  "Error: API request failed with status code " ++ toString code ++ ": " ++ body

/-- Message `"Error: Failed to get job ID from API response."` (line 96). -/
def jobIdMissingMsg : String :=
  "Error: Failed to get job ID from API response."

/-- Message `f"Error checking job status: {status_response.text}"` (line 117). -/
def pollFailMsg (body : String) : String :=
  "Error checking job status: " ++ body

/-- Message `f"Error: Transcription job failed. Reason: {status_data.get('error', 'Unknown error')}"`
(line 127). -/
def jobFailedMsg (err : String) : String :=
  "Error: Transcription job failed. Reason: " ++ err

/-- The default used by `results.get("transcription", "No transcription available")`
(line 124). -/
def noTranscriptionMsg : String := "No transcription available"

/-- Message `"Error: Transcription timed out. Please try again later."` (line 131). -/
def timeoutMsg : String :=
  "Error: Transcription timed out. Please try again later."

/-- The parsed `results` object of a completed poll reply: the JSON field
`transcription` may be absent. -/
structure PollResults where
  transcription : Option String
deriving Repr, DecidableEq

/-- One reply to a polling GET request: the HTTP status code, the raw body
text, and the parsed JSON fields `status`, `results` and `error` used by
lines 119-127 of `transcribe.py` (each possibly absent). -/
structure PollResp where
  httpStatus : Nat
  text : String
  jstatus : Option String
  results : Option PollResults
  error : Option String
deriving Repr, DecidableEq

/-- The reply to the submission POST request: HTTP status, raw body text,
and the parsed JSON field `id` (possibly absent). -/
structure SubmitResp where
  httpStatus : Nat
  text : String
  id : Option String
deriving Repr, DecidableEq

/-- The environment `transcribe_audio` runs against: whether
`os.path.exists(audio_path)` holds, the reply the submission POST would
receive, and the reply the `i`-th polling GET (0-based) would receive. -/
structure Env where
  fileExists : Bool
  submit : SubmitResp
  pollAt : Nat → PollResp

/-- Python `if not job_id` on `response_data.get("id")` (line 95): true for
an absent field and for an empty string. -/
def idFalsy : Option String → Bool
  | none => true
  | some s => s == ""

/-- Extraction `results = status_data.get("results", {})` followed by
`results.get("transcription", "No transcription available")`
(lines 123-124). -/
def extractTranscript (r : PollResp) : String :=
  ((r.results.getD ⟨none⟩).transcription).getD noTranscriptionMsg

/-- The result of a run of `transcribe_audio`: the returned string, the
language code bound at line 54 (`none` when the language check rejects),
and how many POST and GET requests were issued. -/
structure TAResult where
  text : String
  langCode : Option String
  posts : Nat
  gets : Nat
deriving Repr, DecidableEq

/-- The `while attempt < max_attempts` loop of lines 107-131: `i` is the
0-based index of the next poll, `fuel` the number of attempts left.  Returns
the produced string and the number of GET requests issued.  Each iteration
issues one GET; a non-200 reply, a `"completed"` status or a `"failed"`
status terminates the loop, anything else (e.g. `"processing"`) continues;
exhausted fuel yields the timeout message (line 131). -/
def pollLoop (pollAt : Nat → PollResp) : Nat → Nat → String × Nat
  | _, 0 => (timeoutMsg, 0)
  | i, fuel + 1 =>
    let r := pollAt i
    if r.httpStatus ≠ 200 then
      (pollFailMsg r.text, 1)
    else if r.jstatus == some "completed" then
      (extractTranscript r, 1)
    else if r.jstatus == some "failed" then
      (jobFailedMsg (r.error.getD "Unknown error"), 1)
    else
      let rest := pollLoop pollAt (i + 1) fuel
      (rest.1, rest.2 + 1)

/-- Constant `max_attempts = 30` (line 104). -/
def max_attempts : Nat := 30

/-- Function `transcribe_audio` (lines 29-134): the language check (line 51), the
language-code binding (line 54), the file-existence check (line 66), the
submission POST (lines 86-96) and the polling loop (lines 104-131). -/
def transcribe_audio (audio_path language : String) (env : Env) : TAResult :=
  match List.lookup language language_codes with
  | none => ⟨unsupportedMsg language, none, 0, 0⟩
  | some lang_code =>
    if env.fileExists = false then
      ⟨fileMissingMsg audio_path, some lang_code, 0, 0⟩
    else if env.submit.httpStatus ≠ 200 then
      ⟨submitFailMsg env.submit.httpStatus env.submit.text, some lang_code, 1, 0⟩
    else if idFalsy env.submit.id then
      ⟨jobIdMissingMsg, some lang_code, 1, 0⟩
    else
      let rest := pollLoop env.pollAt 0 max_attempts
      ⟨rest.1, some lang_code, 1, rest.2⟩

/-- A poll reply that keeps the loop going: the GET succeeded and the JSON
status is neither `"completed"` nor `"failed"`. -/
def nonterminal (r : PollResp) : Prop :=
  r.httpStatus = 200 ∧ r.jstatus ≠ some "completed" ∧ r.jstatus ≠ some "failed"

instance (r : PollResp) : Decidable (nonterminal r) := by
  unfold nonterminal; infer_instance

end Transcribe

namespace Translate

/-- A Python dict with string keys, as an insertion-ordered association
list with unique keys. -/
abbrev PhraseDict := List (String × String)

/-- Shape `{target_language: {phrase: translation}}`. -/
abbrev LangDict := List (String × PhraseDict)

/-- Shape `{source_language: {target_language: {phrase: translation}}}`. -/
abbrev TransDict := List (String × LangDict)

/-- Python dict assignment `d[k] = v`: overwrite in place when the key is
present (keeping its position), otherwise append at the end. -/
def dset {β : Type} (d : List (String × β)) (k : String) (v : β) :
    List (String × β) :=
  match d with
  | [] => [(k, v)]
  | (k0, v0) :: rest =>
    if k0 == k then (k0, v) :: rest else (k0, v0) :: dset rest k v

/-- The `languages` list of `translate.py` (line 7). -/
def languages : List String :=
  ["English", "Luganda", "Runyankole", "Ateso", "Lugbara", "Acholi"]

/-- The forward-authored `translations` dict literal of `translate.py`
(lines 11-74), in source order. -/
def forwardTable : TransDict :=
  [("English",
    [("Luganda",
      [("Hello", "Oli otya"),
       ("How are you?", "Oli otya?"),
       ("Good morning", "Wasuze otya"),
       ("Thank you", "Weebale"),
       ("Goodbye", "Weraba"),
       ("What is your name?", "Amanya go gwe ani?"),
       ("My name is", "Amanya gange"),
       ("I love you", "Nkwagala"),
       ("I am fine", "Ndi bulungi"),
       ("Welcome", "Tukusanyukidde")]),
     ("Runyankole",
      [("Hello", "Agandi"),
       ("How are you?", "Oli ota?"),
       ("Good morning", "Oraire ota"),
       ("Thank you", "Webale"),
       ("Goodbye", "Urabeho"),
       ("What is your name?", "Nibaiita oha?"),
       ("My name is", "Nibanyeta"),
       ("I love you", "Ninkukunda"),
       ("I am fine", "Ndi kurungi"),
       ("Welcome", "Tukushemereirwe")]),
     ("Ateso",
      [("Hello", "Yoga"),
       ("How are you?", "Ijok bo?"),
       ("Good morning", "Ejok akwar"),
       ("Thank you", "Eyalama"),
       ("Goodbye", "Awaio"),
       ("What is your name?", "Arai ekon bo?"),
       ("My name is", "Ekon ka"),
       ("I love you", "Amina jo"),
       ("I am fine", "Ajok"),
       ("Welcome", "Aiyalamikin")]),
     ("Lugbara",
      [("Hello", "Kzi"),
       ("How are you?", "Mi nga ya?"),
       ("Good morning", "Muke cua"),
       ("Thank you", "Awa\x27difo"),
       ("Goodbye", "Rua pee"),
       ("What is your name?", "Mi ru ngoni?"),
       ("My name is", "Ma ru"),
       ("I love you", "Ma mi nze"),
       ("I am fine", "Ma ovu woro"),
       ("Welcome", "Mu amvu")]),
     ("Acholi",
      [("Hello", "Kopango"),
       ("How are you?", "Itye nining?"),
       ("Good morning", "Iribedo maber"),
       ("Thank you", "Apwoyo"),
       ("Goodbye", "Orfoyo"),
       ("What is your name?", "Nyingi anga?"),
       ("My name is", "Nyinga en"),
       ("I love you", "Amari"),
       ("I am fine", "Atye maber"),
       ("Welcome", "Ibekwano")])])]

/-- The body of the `for tgt_lang` loop at lines 79-87 of `translate.py`:
ensure `translations[tgt_lang]` and `translations[tgt_lang][src_lang]`
exist, then add `translations[tgt_lang][src_lang][translation] = phrase`
for every `(phrase, translation)` item of `translations[src_lang][tgt_lang]`. -/
def addReversePair (t : TransDict) (src tgt : String) : TransDict :=
  let t1 := if (List.lookup tgt t).isNone then dset t tgt [] else t
  let t2 :=
    if (List.lookup src ((List.lookup tgt t1).getD [])).isNone then
      dset t1 tgt (dset ((List.lookup tgt t1).getD []) src []) else t1
  let items := (List.lookup tgt ((List.lookup src t2).getD [])).getD []
  items.foldl
    (fun acc pt =>
      let inner := (List.lookup tgt acc).getD []
      let pd := (List.lookup src inner).getD []
      dset acc tgt (dset inner src (dset pd pt.2 pt.1)))
    t2

/-- The reverse-derivation loop at lines 77-87 of `translate.py`: iterate
over a snapshot of the top-level keys, and for each over a snapshot of its
target keys, adding the reversed entries. -/
def deriveReverse (t : TransDict) : TransDict :=
  (t.map Prod.fst).foldl
    (fun acc src =>
      (((List.lookup src acc).getD []).map Prod.fst).foldl
        (fun acc2 tgt => addReversePair acc2 src tgt)
        acc)
    t

/-- The `translations` dict after the startup reverse derivation. -/
def translations : TransDict := deriveReverse forwardTable

/-- The message printed when no translation is found (line 130). -/
def notAvailableMsg : String :=
  "Sorry, translation not available for this text."

/-- The dict `translations[src][tgt]`, when both keys are present. -/
def innerDict (t : TransDict) (src tgt : String) : Option PhraseDict :=
  (List.lookup src t).bind (fun m => List.lookup tgt m)

/-- The phrase-lookup logic of lines 114-130 of `translate.py`: exact-match
lookup first; otherwise scan the dict in insertion order for the first key
equal to the input up to `lower()` and return its translation; otherwise no
translation is available (`none`). -/
def lookupTranslation (t : TransDict) (src tgt text : String) : Option String :=
  match innerDict t src tgt with
  | none => none
  | some d =>
    match List.lookup text d with
    | some tr => some tr
    | none =>
      match d.find? (fun p => p.1.toLower == text.toLower) with
      | some p => List.lookup p.1 d
      | none => none

/-- What the interactive loop prints for a lookup outcome: the translation
itself, or the "not available" message (lines 118, 125, 130). -/
def renderLookup : Option String → String
  | some tr => tr
  | none => notAvailableMsg

/-- Lookup of `translations[src][tgt][phrase]` when all three keys are present. -/
def lookupPhrase (t : TransDict) (src tgt phrase : String) : Option String :=
  (innerDict t src tgt).bind (fun d => List.lookup phrase d)

/-- All `(src, tgt, phrase, translation)` entries of a three-level dict,
in order. -/
def entriesOf (t : TransDict) : List (String × String × String × String) :=
  t.foldr
    (fun sm acc =>
      sm.2.foldr
        (fun td acc2 =>
          td.2.foldr (fun pt acc3 => (sm.1, td.1, pt.1, pt.2) :: acc3) acc2)
        acc)
    []

/-- The five supported languages other than English. -/
def nonEnglishLanguages : List String :=
  ["Luganda", "Runyankole", "Ateso", "Lugbara", "Acholi"]

/-- The forward-authored English-to-Luganda phrase dict. -/
def englishLuganda : PhraseDict :=
  (innerDict forwardTable "English" "Luganda").getD []

end Translate

namespace Transcribe

/-- A successful submission reply carrying a job id. -/
def submitOK : SubmitResp := { httpStatus := 200, text := "ok", id := some "job-1" }

/-- A successful submission reply whose body lacks the `id` field. -/
def submitNoId : SubmitResp := { httpStatus := 200, text := "ok", id := none }

/-- A poll reply with status `"processing"`. -/
def procResp : PollResp :=
  { httpStatus := 200, text := "", jstatus := some "processing",
    results := none, error := none }

/-- A poll reply with status `"completed"` and transcription `"hello"`. -/
def compResp : PollResp :=
  { httpStatus := 200, text := "", jstatus := some "completed",
    results := some { transcription := some "hello" }, error := none }

/-- A poll reply with status `"completed"` and no `results` object. -/
def compNoTextResp : PollResp :=
  { httpStatus := 200, text := "", jstatus := some "completed",
    results := none, error := none }

/-- A poll reply whose GET failed with HTTP 404. -/
def failedGetResp : PollResp :=
  { httpStatus := 404, text := "not found", jstatus := none,
    results := none, error := none }

/-- An environment whose audio file does not exist. -/
def envMissingFile : Env :=
  { fileExists := false, submit := submitOK, pollAt := fun _ => procResp }

/-- An environment where the first two polls report `"processing"` and the
third reports `"completed"` with transcription `"hello"`. -/
def envCompleted : Env :=
  { fileExists := true, submit := submitOK,
    pollAt := fun i => if i < 2 then procResp else compResp }

/-- An environment where every poll reports `"processing"`. -/
def envProcessing : Env :=
  { fileExists := true, submit := submitOK, pollAt := fun _ => procResp }

/-- An environment where the first two polls report `"processing"` and the
third GET fails with HTTP 404. -/
def envPollFail : Env :=
  { fileExists := true, submit := submitOK,
    pollAt := fun i => if i < 2 then procResp else failedGetResp }

/-- An environment where the first poll reports `"completed"` with no
`results` object. -/
def envCompletedNoText : Env :=
  { fileExists := true, submit := submitOK, pollAt := fun _ => compNoTextResp }

/-- An environment whose submission succeeds (HTTP 200) but carries no
job id. -/
def envNoJobId : Env :=
  { fileExists := true, submit := submitNoId, pollAt := fun _ => procResp }

end Transcribe

namespace Transcribe

theorem pollLoop_gets_le (pollAt : Nat → PollResp) (fuel : Nat) :
    ∀ i : Nat, (pollLoop pollAt i fuel).2 ≤ fuel := by
  induction fuel with
  | zero => intro i; simp [pollLoop]
  | succ f ih =>
    intro i
    rw [pollLoop]
    dsimp only
    split
    · simp
    · split
      · simp
      · split
        · simp
        · have := ih (i + 1)
          dsimp only
          omega

theorem pollLoop_skip (pollAt : Nat → PollResp) (k : Nat) :
    ∀ i fuel : Nat, k ≤ fuel →
    (∀ j, j < k → nonterminal (pollAt (i + j))) →
    pollLoop pollAt i fuel =
      ((pollLoop pollAt (i + k) (fuel - k)).1,
       (pollLoop pollAt (i + k) (fuel - k)).2 + k) := by
  induction k with
  | zero => intro i fuel _ _; simp
  | succ k ih =>
    intro i fuel hk hnt
    obtain ⟨f, rfl⟩ : ∃ f, fuel = f + 1 := ⟨fuel - 1, by omega⟩
    obtain ⟨h200, hc, hf⟩ := hnt 0 (Nat.succ_pos k)
    have h200' : (pollAt i).httpStatus = 200 := by simpa using h200
    have hcb : ((pollAt i).jstatus == some "completed") = false := by
      refine beq_eq_false_iff_ne.mpr ?_
      simpa using hc
    have hfb : ((pollAt i).jstatus == some "failed") = false := by
      refine beq_eq_false_iff_ne.mpr ?_
      simpa using hf
    rw [pollLoop]
    simp only [h200', hcb, hfb, ne_eq, not_true_eq_false, if_false,
      Bool.false_eq_true, reduceIte]
    rw [ih (i + 1) f (by omega)
      (fun j hj => by
        have h := hnt (j + 1) (by omega)
        rwa [(by omega : i + (j + 1) = i + 1 + j)] at h)]
    rw [(by omega : i + 1 + k = i + (k + 1)),
        (by omega : f - k = f + 1 - (k + 1))]
    rw [Nat.add_assoc]

theorem pollLoop_http_fail (pollAt : Nat → PollResp) (i fuel : Nat)
    (hfuel : 0 < fuel) (hfail : (pollAt i).httpStatus ≠ 200) :
    pollLoop pollAt i fuel = (pollFailMsg (pollAt i).text, 1) := by
  obtain ⟨f, rfl⟩ : ∃ f, fuel = f + 1 := ⟨fuel - 1, by omega⟩
  rw [pollLoop]
  simp [hfail]

theorem pollLoop_completed (pollAt : Nat → PollResp) (i fuel : Nat)
    (hfuel : 0 < fuel) (h200 : (pollAt i).httpStatus = 200)
    (hst : (pollAt i).jstatus = some "completed") :
    pollLoop pollAt i fuel = (extractTranscript (pollAt i), 1) := by
  obtain ⟨f, rfl⟩ : ∃ f, fuel = f + 1 := ⟨fuel - 1, by omega⟩
  rw [pollLoop]
  simp [h200, hst]

theorem transcribe_audio_langCode (audio_path language : String) (env : Env) :
    (transcribe_audio audio_path language env).langCode =
      List.lookup language language_codes := by
  unfold transcribe_audio
  cases List.lookup language language_codes with
  | none => rfl
  | some c =>
    dsimp only
    split
    · rfl
    · split
      · rfl
      · split
        · rfl
        · rfl

theorem transcribe_audio_poll (audio_path language : String) (env : Env)
    (c : String)
    (hc : List.lookup language language_codes = some c)
    (hfile : env.fileExists = true)
    (hsub : env.submit.httpStatus = 200)
    (hid : idFalsy env.submit.id = false) :
    transcribe_audio audio_path language env =
      ⟨(pollLoop env.pollAt 0 max_attempts).1, some c, 1,
       (pollLoop env.pollAt 0 max_attempts).2⟩ := by
  unfold transcribe_audio
  rw [hc]
  simp [hfile, hsub, hid]

theorem submitFailMsg_ne (code : Nat) (body : String) :
    submitFailMsg code body ≠ jobIdMissingMsg := by
  intro h
  have hp : 7 < ("Error: API request failed with status code ".data).length := by
    decide
  have h7 : (submitFailMsg code body).data[7]? = some 'A' := by
    have hd : (submitFailMsg code body).data =
        (("Error: API request failed with status code ".data ++
          (toString code).data) ++ ": ".data) ++ body.data := by
      simp [submitFailMsg, String.data_append]
    rw [hd]
    rw [List.getElem?_append_left (by simp [List.length_append])]
    rw [List.getElem?_append_left (by simp [List.length_append])]
    rw [List.getElem?_append_left hp]
    decide
  have h8 : jobIdMissingMsg.data[7]? = some 'A' := by
    rw [← congrArg String.data h]
    exact h7
  exact absurd h8 (by decide)

/-- Claim C1 (counterexample): the language-code mapping does contain a code
for English (`"eng"`), and a submission whose target language is English is
not rejected with the unsupported-language error: with a missing audio file
it reaches the file-existence check and fails there instead. -/
theorem english_rejected_cex :
    List.lookup "English" language_codes = some "eng" ∧
    transcribe_audio "audio.mp3" "English" envMissingFile =
      ⟨fileMissingMsg "audio.mp3", some "eng", 0, 0⟩ ∧
    fileMissingMsg "audio.mp3" ≠ unsupportedMsg "English" := by
  refine ⟨rfl, rfl, by decide⟩

/-- Claim C1 (amended): the language-code mapping maps English to the code
`"eng"`, so a submission whose target language is English passes the local
language check (binding the code `"eng"`) rather than being rejected with an
unsupported-language error. -/
theorem english_accepted_with_code_eng (audio_path : String) (env : Env) :
    List.lookup "English" language_codes = some "eng" ∧
    (transcribe_audio audio_path "English" env).langCode = some "eng" := by
  exact ⟨rfl, transcribe_audio_langCode audio_path "English" env⟩

/-- Claim C2: if the first `k < 30` poll replies are non-terminal and the
next reply has status `"completed"` with a present `results.transcription`
value `t`, then `transcribe_audio` returns exactly `t`. -/
theorem completed_poll_returns_transcript
    (audio_path language : String) (env : Env) (c : String) (k : Nat)
    (t : String)
    (hc : List.lookup language language_codes = some c)
    (hfile : env.fileExists = true)
    (hsub : env.submit.httpStatus = 200)
    (hid : idFalsy env.submit.id = false)
    (hk : k < 30)
    (hnt : ∀ j, j < k → nonterminal (env.pollAt j))
    (h200 : (env.pollAt k).httpStatus = 200)
    (hst : (env.pollAt k).jstatus = some "completed")
    (htr : (env.pollAt k).results = some ⟨some t⟩) :
    (transcribe_audio audio_path language env).text = t := by
  rw [transcribe_audio_poll audio_path language env c hc hfile hsub hid]
  dsimp only
  rw [pollLoop_skip env.pollAt k 0 max_attempts
    (by simp only [max_attempts]; omega)
    (fun j hj => by simpa using hnt j hj)]
  rw [pollLoop_completed env.pollAt (0 + k) (max_attempts - k)
    (by simp only [max_attempts]; omega)
    (by simpa using h200) (by simpa using hst)]
  simp [extractTranscript, htr]

/-- Witness for C2: two `"processing"` polls followed by a `"completed"`
poll with transcription `"hello"` make `transcribe_audio` return
`"hello"`. -/
theorem completed_poll_returns_transcript_witness :
    (transcribe_audio "audio.mp3" "Luganda" envCompleted).text = "hello" :=
  completed_poll_returns_transcript "audio.mp3" "Luganda" envCompleted
    "lug" 2 "hello" (by decide) rfl rfl (by decide) (by decide) (by decide)
    (by decide) (by decide) (by decide)

/-- Claim C3: the polling loop issues at most 30 GET requests, and when
every one of the 30 replies is non-terminal the function returns the
timeout message. -/
theorem poll_cap_and_timeout (audio_path language : String) (env : Env) :
    (transcribe_audio audio_path language env).gets ≤ 30 ∧
    (∀ c, List.lookup language language_codes = some c →
      env.fileExists = true →
      env.submit.httpStatus = 200 →
      idFalsy env.submit.id = false →
      (∀ j, j < 30 → nonterminal (env.pollAt j)) →
      (transcribe_audio audio_path language env).text = timeoutMsg) := by
  constructor
  · unfold transcribe_audio
    cases List.lookup language language_codes with
    | none => simp
    | some c =>
      dsimp only
      split
      · simp
      · split
        · simp
        · split
          · simp
          · have := pollLoop_gets_le env.pollAt max_attempts 0
            simpa [max_attempts] using this
  · intro c hc hfile hsub hid hnt
    rw [transcribe_audio_poll audio_path language env c hc hfile hsub hid]
    dsimp only
    rw [pollLoop_skip env.pollAt 30 0 max_attempts
      (by simp [max_attempts])
      (fun j hj => by simpa using hnt j hj)]
    simp [max_attempts, pollLoop]

/-- Witness for C3: with every poll replying `"processing"`,
`transcribe_audio` issues at most 30 GETs and returns the timeout
message. -/
theorem poll_cap_and_timeout_witness :
    (transcribe_audio "audio.mp3" "Luganda" envProcessing).gets ≤ 30 ∧
    (transcribe_audio "audio.mp3" "Luganda" envProcessing).text =
      timeoutMsg :=
  ⟨(poll_cap_and_timeout "audio.mp3" "Luganda" envProcessing).1,
   (poll_cap_and_timeout "audio.mp3" "Luganda" envProcessing).2 "lug"
     (by decide) rfl rfl (by decide) (by decide)⟩

/-- Claim C4: if the first `k < 30` poll replies are non-terminal and the
next GET fails (non-200), `transcribe_audio` returns the poll-error message
built from that reply and issues exactly `k + 1` GET requests: the failed
poll is not retried and no further poll is made. -/
theorem poll_transport_failure_terminal
    (audio_path language : String) (env : Env) (c : String) (k : Nat)
    (hc : List.lookup language language_codes = some c)
    (hfile : env.fileExists = true)
    (hsub : env.submit.httpStatus = 200)
    (hid : idFalsy env.submit.id = false)
    (hk : k < 30)
    (hnt : ∀ j, j < k → nonterminal (env.pollAt j))
    (hfail : (env.pollAt k).httpStatus ≠ 200) :
    (transcribe_audio audio_path language env).text =
      pollFailMsg (env.pollAt k).text ∧
    (transcribe_audio audio_path language env).gets = k + 1 := by
  rw [transcribe_audio_poll audio_path language env c hc hfile hsub hid]
  dsimp only
  rw [pollLoop_skip env.pollAt k 0 max_attempts
    (by simp only [max_attempts]; omega)
    (fun j hj => by simpa using hnt j hj)]
  rw [pollLoop_http_fail env.pollAt (0 + k) (max_attempts - k)
    (by simp only [max_attempts]; omega)
    (by simpa using hfail)]
  constructor
  · simp
  · simp [Nat.add_comm]

/-- Witness for C4: two `"processing"` polls followed by an HTTP 404 GET
terminate the run with the poll-error message after exactly 3 GETs. -/
theorem poll_transport_failure_terminal_witness :
    (transcribe_audio "audio.mp3" "Luganda" envPollFail).text =
      pollFailMsg (envPollFail.pollAt 2).text ∧
    (transcribe_audio "audio.mp3" "Luganda" envPollFail).gets = 2 + 1 :=
  poll_transport_failure_terminal "audio.mp3" "Luganda" envPollFail "lug" 2
    (by decide) rfl rfl (by decide) (by decide) (by decide) (by decide)

/-- Claim C5: if the first `k < 30` poll replies are non-terminal and the
next reply has status `"completed"` but lacks a `results.transcription`
value, `transcribe_audio` returns the fixed placeholder
`"No transcription available"`. -/
theorem completed_poll_missing_transcription_placeholder
    (audio_path language : String) (env : Env) (c : String) (k : Nat)
    (hc : List.lookup language language_codes = some c)
    (hfile : env.fileExists = true)
    (hsub : env.submit.httpStatus = 200)
    (hid : idFalsy env.submit.id = false)
    (hk : k < 30)
    (hnt : ∀ j, j < k → nonterminal (env.pollAt j))
    (h200 : (env.pollAt k).httpStatus = 200)
    (hst : (env.pollAt k).jstatus = some "completed")
    (hmiss : ((env.pollAt k).results.getD ⟨none⟩).transcription = none) :
    (transcribe_audio audio_path language env).text = noTranscriptionMsg := by
  rw [transcribe_audio_poll audio_path language env c hc hfile hsub hid]
  dsimp only
  rw [pollLoop_skip env.pollAt k 0 max_attempts
    (by simp only [max_attempts]; omega)
    (fun j hj => by simpa using hnt j hj)]
  rw [pollLoop_completed env.pollAt (0 + k) (max_attempts - k)
    (by simp only [max_attempts]; omega)
    (by simpa using h200) (by simpa using hst)]
  simp only [extractTranscript]
  rw [Nat.zero_add, hmiss]
  rfl

/-- Witness for C5: a `"completed"` first poll with no `results` object
yields the placeholder text. -/
theorem completed_poll_missing_transcription_placeholder_witness :
    (transcribe_audio "audio.mp3" "Luganda" envCompletedNoText).text =
      noTranscriptionMsg :=
  completed_poll_missing_transcription_placeholder "audio.mp3" "Luganda"
    envCompletedNoText "lug" 0 (by decide) rfl rfl (by decide) (by decide)
    (by decide) (by decide) (by decide) (by decide)

/-- Claim C6: a submission reply with HTTP 200 whose body lacks a job id
makes `transcribe_audio` return the fixed job-id-missing error, and that
error differs from the message produced for any non-success transport
status. -/
theorem missing_job_id_distinct_error
    (audio_path language : String) (env : Env) (c : String)
    (hc : List.lookup language language_codes = some c)
    (hfile : env.fileExists = true)
    (hsub : env.submit.httpStatus = 200)
    (hid : idFalsy env.submit.id = true) :
    (transcribe_audio audio_path language env).text = jobIdMissingMsg ∧
    ∀ (code : Nat) (body : String),
      submitFailMsg code body ≠ jobIdMissingMsg := by
  constructor
  · unfold transcribe_audio
    rw [hc]
    simp [hfile, hsub, hid]
  · intro code body
    exact submitFailMsg_ne code body

/-- Witness for C6: a 200 submission reply with no `id` field yields the
job-id-missing error, which differs from a sample transport-failure
message. -/
theorem missing_job_id_distinct_error_witness :
    (transcribe_audio "audio.mp3" "Luganda" envNoJobId).text =
      jobIdMissingMsg ∧
    submitFailMsg 500 "boom" ≠ jobIdMissingMsg :=
  ⟨(missing_job_id_distinct_error "audio.mp3" "Luganda" envNoJobId "lug"
      (by decide) rfl rfl (by decide)).1,
   (missing_job_id_distinct_error "audio.mp3" "Luganda" envNoJobId "lug"
      (by decide) rfl rfl (by decide)).2 500 "boom"⟩

/-- Claim C7: an unsupported language name makes `transcribe_audio` return
the local unsupported-language error with zero POSTs and zero GETs, and a
nonexistent audio file makes it return a local error (the language or the
file error) with zero POSTs and zero GETs. -/
theorem local_rejection_zero_requests
    (audio_path language : String) (env : Env) :
    (List.lookup language language_codes = none →
      transcribe_audio audio_path language env =
        ⟨unsupportedMsg language, none, 0, 0⟩) ∧
    (env.fileExists = false →
      (transcribe_audio audio_path language env).posts = 0 ∧
      (transcribe_audio audio_path language env).gets = 0 ∧
      ((transcribe_audio audio_path language env).text =
          unsupportedMsg language ∨
       (transcribe_audio audio_path language env).text =
          fileMissingMsg audio_path)) := by
  constructor
  · intro hnone
    unfold transcribe_audio
    rw [hnone]
  · intro hfile
    unfold transcribe_audio
    cases List.lookup language language_codes with
    | none => simp
    | some c => simp [hfile]

/-- Witness for C7: the unsupported language `"French"` and a missing audio
file each produce a local error with zero network requests. -/
theorem local_rejection_zero_requests_witness :
    transcribe_audio "audio.mp3" "French" envMissingFile =
      ⟨unsupportedMsg "French", none, 0, 0⟩ ∧
    (transcribe_audio "ghost.mp3" "Luganda" envMissingFile).posts = 0 ∧
    (transcribe_audio "ghost.mp3" "Luganda" envMissingFile).gets = 0 ∧
    ((transcribe_audio "ghost.mp3" "Luganda" envMissingFile).text =
        unsupportedMsg "Luganda" ∨
     (transcribe_audio "ghost.mp3" "Luganda" envMissingFile).text =
        fileMissingMsg "ghost.mp3") :=
  ⟨(local_rejection_zero_requests "audio.mp3" "French" envMissingFile).1
     (by decide),
   (local_rejection_zero_requests "ghost.mp3" "Luganda" envMissingFile).2
     rfl⟩

end Transcribe

namespace Translate

/-- Claim C8: for every forward-authored entry
`(src, tgt, phrase) → translation` of the phrase table, looking up
`translation` under the reversed pair `(tgt, src)` in the derived table
returns `phrase`. -/
theorem reverse_lookup_roundtrip :
    ∀ e ∈ entriesOf forwardTable,
      lookupPhrase translations e.2.1 e.1 e.2.2.2 = some e.2.2.1 := by
  decide

/-- Witness for C8: the forward entry English-to-Luganda
`"Hello" → "Oli otya"` reverses to `"Oli otya" → "Hello"`. -/
theorem reverse_lookup_roundtrip_witness :
    lookupPhrase translations "Luganda" "English" "Oli otya" = some "Hello" :=
  reverse_lookup_roundtrip ("English", "Luganda", "Hello", "Oli otya")
    (by decide)

/-- Claim C9: phrase lookup tries an exact match first and returns its
translation when present; a case-insensitive match is consulted only when
no exact match exists, in which case the first phrase equal to the input
up to lowering is used; when neither matches, no translation is
available. -/
theorem lookup_exact_then_ci_then_unavailable
    (src tgt text : String) (d : PhraseDict)
    (hd : innerDict translations src tgt = some d) :
    (∀ tr, List.lookup text d = some tr →
      lookupTranslation translations src tgt text = some tr) ∧
    (List.lookup text d = none →
      (∀ p, p ∈ d → p.1.toLower ≠ text.toLower) →
      lookupTranslation translations src tgt text = none) ∧
    (List.lookup text d = none →
      ∀ q, q ∈ d → q.1.toLower = text.toLower →
      ∃ p, p ∈ d ∧ p.1.toLower = text.toLower ∧
        lookupTranslation translations src tgt text = List.lookup p.1 d) := by
  refine ⟨?_, ?_, ?_⟩
  · intro tr htr
    unfold lookupTranslation
    rw [hd]
    dsimp only
    rw [htr]
  · intro hnone hciall
    unfold lookupTranslation
    rw [hd]
    dsimp only
    rw [hnone]
    cases hf : d.find? (fun p => p.1.toLower == text.toLower) with
    | none => rfl
    | some p =>
      exfalso
      exact hciall p (List.mem_of_find?_eq_some hf)
        (by simpa using List.find?_some hf)
  · intro hnone q hq hqlow
    cases hf : d.find? (fun p => p.1.toLower == text.toLower) with
    | none =>
      exfalso
      have := List.find?_eq_none.mp hf q hq
      simp [hqlow] at this
    | some p =>
      refine ⟨p, List.mem_of_find?_eq_some hf,
        by simpa using List.find?_some hf, ?_⟩
      unfold lookupTranslation
      rw [hd]
      dsimp only
      rw [hnone, hf]

/-- Witness for C9: in the English-to-Luganda dict, `"Hello"` matches
exactly, and `"hello"` has no exact match but case-insensitively matches
the phrase `"Hello"`, yielding `"Oli otya"`. -/
theorem lookup_exact_then_ci_then_unavailable_witness :
    lookupTranslation translations "English" "Luganda" "Hello" =
      some "Oli otya" :=
  (lookup_exact_then_ci_then_unavailable "English" "Luganda" "Hello"
      englishLuganda (by decide)).1 "Oli otya" (by decide)

/-- Claim C10: for every pair of distinct non-English languages and every
input text, phrase lookup finds no translation: the derived table has no
non-English-to-non-English inner dict. -/
theorem non_english_pairs_unavailable :
    ∀ src ∈ nonEnglishLanguages, ∀ tgt ∈ nonEnglishLanguages,
      src ≠ tgt → ∀ text : String,
      lookupTranslation translations src tgt text = none := by
  intro src hs tgt ht hne text
  have hkey : innerDict translations src tgt = none := by
    fin_cases hs <;> fin_cases ht <;>
      first
      | exact absurd rfl hne
      | rfl
  unfold lookupTranslation
  rw [hkey]

/-- Witness for C10: Luganda-to-Acholi lookup of `"Oli otya"` reports no
translation available. -/
theorem non_english_pairs_unavailable_witness :
    lookupTranslation translations "Luganda" "Acholi" "Oli otya" = none :=
  non_english_pairs_unavailable "Luganda" (by decide) "Acholi" (by decide)
    (by decide) "Oli otya"

end Translate
